import Mathlib

/-!
Shallow embedding of the spreadsheet-copy workflow implemented in
`quickstart.go` and in the monolithic file `part_000` of the same
repository.  The remote spreadsheet service, the clock and the file
system are modelled as an environment of oracles; the two `main`
functions become explicit trace-producing functions.  Every API request
the program issues is recorded in order, paired with a `Bool` telling
whether the environment answered it successfully (`log.Fatalf` on a
failed answer stops the run immediately).
-/

/-- An error value returned by the remote service or by an I/O step.
The Go code never inspects an error beyond formatting it into a log
message, so only an opaque message is carried. -/
structure ApiErr where
  msg : String
deriving DecidableEq, Repr

/-- Go `sheets.SheetProperties`, restricted to the two fields the program
reads and writes: `SheetId` (an `int64`) and `Title`. -/
structure SheetProperties where
  sheetId : Int
  title : String
deriving DecidableEq, Repr

/-- Go `sheets.Sheet`, restricted to its `Properties` field. -/
structure Sheet where
  properties : SheetProperties
deriving DecidableEq, Repr

/-- Go `sheets.Spreadsheet`, restricted to the fields the program reads:
`SpreadsheetId` and `Sheets`. -/
structure Spreadsheet where
  spreadsheetId : String
  sheets : List Sheet
deriving DecidableEq, Repr

/-- A cell value placed in a `ValueRange` (Go `interface\x7b\x7d`); the
program only ever stores `int` values (the year and the month). -/
inductive CellValue where
  | int (n : Int)
  | str (s : String)
deriving DecidableEq, Repr

/-- Go `sheets.ValueRange` as built by the program: `Range`, `Values`,
`MajorDimension`. -/
structure ValueRange where
  range : String
  values : List (List CellValue)
  majorDimension : String
deriving DecidableEq, Repr

/-- The body of an `UpdateSheetPropertiesRequest` as the program fills
it: the new `SheetProperties` (id and title) plus the `Fields` mask. -/
structure UpdatePropertiesBody where
  sheetId : Int
  title : String
  fields : String
deriving DecidableEq, Repr

/-- One entry of a `BatchUpdateSpreadsheetRequest.Requests` list; the
program only ever builds `UpdateSheetProperties` and `DeleteSheet`
requests. -/
inductive BatchRequest where
  | updateSheetProperties (body : UpdatePropertiesBody)
  | deleteSheet (sheetId : Int)
deriving DecidableEq, Repr

/-- An API request issued to the spreadsheet service, with the
arguments the Go code passes to the corresponding client-library
endpoint. -/
inductive ApiCall where
  | create (title : String)
  | get (spreadsheetId : String)
  | copyTo (sourceId : String) (sheetId : Int) (destinationId : String)
  | batchUpdate (spreadsheetId : String) (requests : List BatchRequest)
  | valuesUpdate (spreadsheetId : String) (rangeArg : String)
      (body : ValueRange) (valueInputOption : String)
deriving DecidableEq, Repr

/-- The environment a run executes in: the responses of the remote
service (indexed by how many calls of that endpoint were made before)
and the current date.  Quantifying over `Env` quantifies over every
sequence of service responses. -/
structure Env where
  createResp : Except ApiErr Spreadsheet
  getResp : Nat → String → Except ApiErr Spreadsheet
  copyResp : Nat → Except ApiErr SheetProperties
  batchResp : Nat → Except ApiErr Unit
  valuesResp : Nat → Except ApiErr Unit
  nowYear : Int
  nowMonth : Int

/-- How a run of `main` ends: normal return, `log.Fatalf` (process
aborted after a failed call), or a Go runtime panic (index out of
range). -/
inductive Outcome where
  | ok
  | fatal
  | crash
deriving DecidableEq, Repr

/-- How one of the helper functions of `quickstart.go` ends: a Go
runtime panic, `log.Fatalf` inside the function, or a normal `return`
carrying the Go `error` value (`none` models the literal `nil`). -/
inductive FnRes (α : Type) where
  | crash
  | aborted
  | returned (e : Option ApiErr) (val : α)
deriving DecidableEq, Repr

/-- The title given to the newly created spreadsheet
(`quickstart.go` line 77 / `part_000` line 94). -/
def newSpreadsheetTitle : String := "勤務表作成テスト"

/-- The hard-coded id of the template spreadsheet
(`quickstart.go` line 211 / `part_000` line 104). -/
def sourceSpreadsheetId : String := ""

/-- The suffix the service appends to the title of a copied sheet and
which the program strips (`quickstart.go` line 111). -/
def copySuffix : String := "のコピー"

/-- Go `strings.TrimSuffix s suffix`: `s` without `suffix` when `s`
ends in `suffix`, otherwise `s` unchanged. -/
def trimSuffix (s suffix : String) : String :=
  if suffix.toList.isSuffixOf s.toList then
    String.mk (s.toList.take (s.toList.length - suffix.toList.length))
  else s

/-- The copy loop shared by `copySpreadsheet` (`quickstart.go` lines
101-131) and `main` of `part_000` (lines 116-148): for each source
sheet, a `CopyTo` call and then a one-request `BatchUpdate` renaming
the copy to its title with `のコピー` stripped, with field mask
`"title"`.  `ci`/`bi` count the `CopyTo`/`BatchUpdate` calls already
made; the result is the annotated trace and, unless a call failed
(`log.Fatal`), the final counters. -/
def copyLoop (env : Env) (destinationSpreadsheetId : String) :
    List Sheet → Nat → Nat → List (ApiCall × Bool) × Option (Nat × Nat)
  | [], ci, bi => ([], some (ci, bi))
  | sheet :: rest, ci, bi =>
    let copyCall := ApiCall.copyTo sourceSpreadsheetId
      sheet.properties.sheetId destinationSpreadsheetId
    match env.copyResp ci with
    | .error _ => ([(copyCall, false)], none)
    | .ok resp =>
      let newSheetTitle := trimSuffix resp.title copySuffix
      let renameCall := ApiCall.batchUpdate destinationSpreadsheetId
        [BatchRequest.updateSheetProperties
          ⟨resp.sheetId, newSheetTitle, "title"⟩]
      match env.batchResp bi with
      | .error _ => ([(copyCall, true), (renameCall, false)], none)
      | .ok _ =>
        let r := copyLoop env destinationSpreadsheetId rest (ci + 1) (bi + 1)
        ((copyCall, true) :: (renameCall, true) :: r.1, r.2)

/-- The `Values.Update` call built for one destination sheet
(`quickstart.go` lines 164-178): range `<title>!A1:A3`, rows
`[[year], [], [month]]`, major dimension `ROWS`, value input option
`RAW`. -/
def valuesCallOf (destinationSpreadsheetId : String) (year month : Int)
    (sheet : Sheet) : ApiCall :=
  let vr : ValueRange :=
    { range := sheet.properties.title ++ "!A1:A3"
      values := [[CellValue.int year], [], [CellValue.int month]]
      majorDimension := "ROWS" }
  ApiCall.valuesUpdate destinationSpreadsheetId vr.range vr "RAW"

/-- The value-writing loop shared by `updateCellsYearMonth`
(`quickstart.go` lines 164-182) and `main` of `part_000` (lines
182-200): one `Values.Update` per destination sheet.  `vi` counts the
`Values.Update` calls already made; the `Bool` result is `false` when a
call failed (`log.Fatalf`). -/
def updateLoop (env : Env) (destinationSpreadsheetId : String)
    (year month : Int) :
    List Sheet → Nat → List (ApiCall × Bool) × Bool
  | [], _ => ([], true)
  | sheet :: rest, vi =>
    let call := valuesCallOf destinationSpreadsheetId year month sheet
    match env.valuesResp vi with
    | .error _ => ([(call, false)], false)
    | .ok _ =>
      let r := updateLoop env destinationSpreadsheetId year month rest (vi + 1)
      ((call, true) :: r.1, r.2)

/-- Function `createSpreadsheet` of `quickstart.go` (lines 74-87): one `Create`
call with the fixed title, propagating the service's answer. -/
def createSpreadsheetFn (env : Env) :
    List (ApiCall × Bool) × Except ApiErr Spreadsheet :=
  let call := ApiCall.create newSpreadsheetTitle
  match env.createResp with
  | .error e => ([(call, false)], .error e)
  | .ok s => ([(call, true)], .ok s)

/-- Function `getSpreadsheet` of `quickstart.go` (lines 90-97): one `Get` call,
propagating the service's answer.  `gi` counts earlier `Get` calls. -/
def getSpreadsheetFn (env : Env) (gi : Nat) (spreadsheetId : String) :
    List (ApiCall × Bool) × Except ApiErr Spreadsheet :=
  let call := ApiCall.get spreadsheetId
  match env.getResp gi spreadsheetId with
  | .error e => ([(call, false)], .error e)
  | .ok s => ([(call, true)], .ok s)

/-- Function `copySpreadsheet` of `quickstart.go` (lines 100-134): runs the copy
loop; a failed call inside the loop is `log.Fatal` (aborted), and on
completion the function executes `return nil`. -/
def copySpreadsheetFn (env : Env) (sourceSpreadsheet : Spreadsheet)
    (destinationSpreadsheetId : String) (ci bi : Nat) :
    List (ApiCall × Bool) × FnRes (Nat × Nat) :=
  let r := copyLoop env destinationSpreadsheetId sourceSpreadsheet.sheets ci bi
  match r.2 with
  | none => (r.1, .aborted)
  | some counts => (r.1, .returned none counts)

/-- Function `deleteBlankSheet` of `quickstart.go` (lines 137-156): reads
`newSheet.Sheets[0]` with no bounds check (a zero-sheet spreadsheet
makes the access panic), then issues one `BatchUpdate` with a single
`DeleteSheet` request; a failed call is `log.Fatalf`, and on success
the function executes `return nil`. -/
def deleteBlankSheetFn (env : Env) (newSheet : Spreadsheet)
    (destinationSpreadsheetId : String) (bi : Nat) :
    List (ApiCall × Bool) × FnRes Unit :=
  match newSheet.sheets.head? with
  | none => ([], .crash)
  | some blank =>
    let call := ApiCall.batchUpdate destinationSpreadsheetId
      [BatchRequest.deleteSheet blank.properties.sheetId]
    match env.batchResp bi with
    | .error _ => ([(call, false)], .aborted)
    | .ok _ => ([(call, true)], .returned none ())

/-- Function `updateCellsYearMonth` of `quickstart.go` (lines 159-185): reads
the current year and month, runs the value-writing loop over the
destination's sheets; a failed call is `log.Fatalf`, and on completion
the function executes `return nil`. -/
def updateCellsYearMonthFn (env : Env)
    (destinationSpreadsheet : Spreadsheet)
    (destinationSpreadsheetId : String) :
    List (ApiCall × Bool) × FnRes Unit :=
  let r := updateLoop env destinationSpreadsheetId env.nowYear env.nowMonth
    destinationSpreadsheet.sheets 0
  if r.2 then (r.1, .returned none ()) else (r.1, .aborted)

/-- The common tail of both `main` functions (`quickstart.go` lines
233-241, `part_000` lines 171-200): fetch the destination spreadsheet
(the second `Get` call of the run) and write the year/month values into
each of its sheets. -/
def finishPhase (env : Env) (destinationSpreadsheetId : String)
    (done : List (ApiCall × Bool)) : List (ApiCall × Bool) × Outcome :=
  let g := getSpreadsheetFn env 1 destinationSpreadsheetId
  match g.2 with
  | .error _ => (done ++ g.1, .fatal)
  | .ok destinationSpreadsheet =>
    let u := updateCellsYearMonthFn env destinationSpreadsheet
      destinationSpreadsheetId
    match u.2 with
    | .crash => (done ++ g.1 ++ u.1, .crash)
    | .aborted => (done ++ g.1 ++ u.1, .fatal)
    | .returned e _ =>
      match e with
      | some _ => (done ++ g.1 ++ u.1, .fatal)
      | none => (done ++ g.1 ++ u.1, .ok)

/-- Function `main` of `quickstart.go` (lines 205-241), from the first service
call on: create the destination, fetch the source, copy and rename
every source sheet, delete the destination's first sheet when the
source has at least one sheet, then fetch the destination and write the
year/month values.  Every `if err != nil \x7b log.Fatalf \x7d` in `main`
becomes a `.fatal` branch. -/
def quickstartRun (env : Env) : List (ApiCall × Bool) × Outcome :=
  let c := createSpreadsheetFn env
  match c.2 with
  | .error _ => (c.1, .fatal)
  | .ok newSheet =>
    let destinationSpreadsheetId := newSheet.spreadsheetId
    let g := getSpreadsheetFn env 0 sourceSpreadsheetId
    match g.2 with
    | .error _ => (c.1 ++ g.1, .fatal)
    | .ok sourceSpreadsheet =>
      let cp := copySpreadsheetFn env sourceSpreadsheet
        destinationSpreadsheetId 0 0
      match cp.2 with
      | .crash => (c.1 ++ g.1 ++ cp.1, .crash)
      | .aborted => (c.1 ++ g.1 ++ cp.1, .fatal)
      | .returned e counts =>
        match e with
        | some _ => (c.1 ++ g.1 ++ cp.1, .fatal)
        | none =>
          if sourceSpreadsheet.sheets.isEmpty then
            finishPhase env destinationSpreadsheetId (c.1 ++ g.1 ++ cp.1)
          else
            let d := deleteBlankSheetFn env newSheet
              destinationSpreadsheetId counts.2
            match d.2 with
            | .crash => (c.1 ++ g.1 ++ cp.1 ++ d.1, .crash)
            | .aborted => (c.1 ++ g.1 ++ cp.1 ++ d.1, .fatal)
            | .returned e2 _ =>
              match e2 with
              | some _ => (c.1 ++ g.1 ++ cp.1 ++ d.1, .fatal)
              | none => finishPhase env destinationSpreadsheetId
                  (c.1 ++ g.1 ++ cp.1 ++ d.1)

/-- Function `main` of `part_000` (lines 91-200), from the first service call
on.  Identical to `quickstart.go` except that `blankSheetId :=
newSheet.Sheets[0].Properties.SheetId` (line 151) is evaluated before
the `len(sourceSpreadsheet.Sheets) > 0` guard, so it is reached even
when the source has no sheets. -/
def part000Run (env : Env) : List (ApiCall × Bool) × Outcome :=
  let createCall := ApiCall.create newSpreadsheetTitle
  match env.createResp with
  | .error _ => ([(createCall, false)], .fatal)
  | .ok newSheet =>
    let destinationSpreadsheetId := newSheet.spreadsheetId
    let getSrcCall := ApiCall.get sourceSpreadsheetId
    match env.getResp 0 sourceSpreadsheetId with
    | .error _ => ([(createCall, true), (getSrcCall, false)], .fatal)
    | .ok sourceSpreadsheet =>
      let r := copyLoop env destinationSpreadsheetId
        sourceSpreadsheet.sheets 0 0
      let done := (createCall, true) :: (getSrcCall, true) :: r.1
      match r.2 with
      | none => (done, .fatal)
      | some counts =>
        match newSheet.sheets.head? with
        | none => (done, .crash)
        | some blank =>
          if sourceSpreadsheet.sheets.isEmpty then
            finishPhase env destinationSpreadsheetId done
          else
            let delCall := ApiCall.batchUpdate destinationSpreadsheetId
              [BatchRequest.deleteSheet blank.properties.sheetId]
            match env.batchResp counts.2 with
            | .error _ => (done ++ [(delCall, false)], .fatal)
            | .ok _ => finishPhase env destinationSpreadsheetId
                (done ++ [(delCall, true)])

/-- An OAuth2 token; the Go code treats it as opaque JSON data. -/
structure OAuthToken where
  raw : String
deriving DecidableEq, Repr

/-- The environment of `getClient` (`quickstart.go` lines 20-29): the
result of opening and reading `token.json`, the JSON decoder, and the
token the interactive web flow would produce. -/
structure AuthEnv where
  tokenFileRead : Except ApiErr String
  decodeToken : String → Except ApiErr OAuthToken
  webToken : OAuthToken

/-- An observable step of `getClient`: reading `token.json`, running
the interactive web authorization flow, or saving a token to
`token.json`. -/
inductive AuthEvent where
  | readTokenFile
  | webFlow
  | saveTokenFile (t : OAuthToken)
deriving DecidableEq, Repr

/-- Function `tokenFromFile` of `quickstart.go` (lines 51-60): open `token.json`
and JSON-decode its contents, propagating either failure. -/
def tokenFromFileRun (env : AuthEnv) : Except ApiErr OAuthToken :=
  match env.tokenFileRead with
  | .error e => .error e
  | .ok contents => env.decodeToken contents

/-- Function `getClient` of `quickstart.go` (lines 20-29): use the token from
`token.json` when it reads and decodes, otherwise run the web flow and
save the new token before returning.  The returned token is the one the
HTTP client is built from. -/
def getClientRun (env : AuthEnv) : List AuthEvent × OAuthToken :=
  match tokenFromFileRun env with
  | .ok tok => ([AuthEvent.readTokenFile], tok)
  | .error _ =>
    let tok := env.webToken
    ([AuthEvent.readTokenFile, AuthEvent.webFlow,
      AuthEvent.saveTokenFile tok], tok)

/-- Does a call hit the `Create` endpoint? -/
def isCreateCall : ApiCall → Bool
  | .create _ => true
  | _ => false

/-- Does a call hit the `Get` endpoint? -/
def isGetCall : ApiCall → Bool
  | .get _ => true
  | _ => false

/-- Does a call hit the `Sheets.CopyTo` endpoint? -/
def isCopyCall : ApiCall → Bool
  | .copyTo _ _ _ => true
  | _ => false

/-- Does a call hit the `BatchUpdate` endpoint? -/
def isBatchCall : ApiCall → Bool
  | .batchUpdate _ _ => true
  | _ => false

/-- Does a call hit the `Values.Update` endpoint? -/
def isValuesUpdateCall : ApiCall → Bool
  | .valuesUpdate _ _ _ _ => true
  | _ => false

/-- Does a call carry a `DeleteSheet` request? -/
def isDeleteCall : ApiCall → Bool
  | .batchUpdate _ reqs =>
      reqs.any fun r =>
        match r with
        | .deleteSheet _ => true
        | _ => false
  | _ => false

/-- The trace the copy loop produces when every service response
succeeds and the `i`-th `CopyTo` call is answered with properties
`ps i`: for each source sheet, the `CopyTo` call followed by the
one-request rename `BatchUpdate` whose new title is the answered title
with `のコピー` stripped and whose field mask is `"title"`. -/
def expectedCopy (destinationSpreadsheetId : String)
    (ps : Nat → SheetProperties) :
    List Sheet → Nat → List (ApiCall × Bool)
  | [], _ => []
  | sheet :: rest, i =>
    (ApiCall.copyTo sourceSpreadsheetId sheet.properties.sheetId
        destinationSpreadsheetId, true)
      :: (ApiCall.batchUpdate destinationSpreadsheetId
            [BatchRequest.updateSheetProperties
              ⟨(ps i).sheetId, trimSuffix (ps i).title copySuffix,
                "title"⟩], true)
      :: expectedCopy destinationSpreadsheetId ps rest (i + 1)

/-- Every call of the trace got a successful response. -/
def allOk (t : List (ApiCall × Bool)) : Bool :=
  t.all fun p => p.2

/-- Every call of the trace except possibly the last got a successful
response: a failure, if any, immediately ended the run. -/
def stopsAtFirstFailure : List (ApiCall × Bool) → Bool
  | [] => true
  | [_] => true
  | p :: q :: rest => p.2 && stopsAtFirstFailure (q :: rest)

/-- A concrete environment in which the first copy call fails while
the source spreadsheet has one sheet. -/
def envFailCopy : Env :=
  { createResp := .ok ⟨"d", [⟨⟨0, "シート1"⟩⟩]⟩
    getResp := fun i _ =>
      if i = 0 then .ok ⟨"", [⟨⟨1, "雛形"⟩⟩]⟩
      else .ok ⟨"d", [⟨⟨7, "雛形"⟩⟩]⟩
    copyResp := fun _ => .error ⟨"copy failed"⟩
    batchResp := fun _ => .ok ()
    valuesResp := fun _ => .ok ()
    nowYear := 2026
    nowMonth := 10 }

/-- A concrete environment in which every call succeeds, the source
spreadsheet has two sheets (titled 一 and 二) and the re-fetched
destination therefore has two sheets. -/
def envC1 : Env :=
  { createResp := .ok ⟨"d", [⟨⟨0, "シート1"⟩⟩]⟩
    getResp := fun i _ =>
      if i = 0 then .ok ⟨"", [⟨⟨1, "一"⟩⟩, ⟨⟨2, "二"⟩⟩]⟩
      else .ok ⟨"d", [⟨⟨10, "一"⟩⟩, ⟨⟨11, "二"⟩⟩]⟩
    copyResp := fun i => .ok ⟨Int.ofNat (100 + i), "一のコピー"⟩
    batchResp := fun _ => .ok ()
    valuesResp := fun _ => .ok ()
    nowYear := 2026
    nowMonth := 10 }

/-- A concrete environment in which every call succeeds and the source
spreadsheet has no sheets; the created destination keeps its single
default sheet. -/
def envNoSheets : Env :=
  { createResp := .ok ⟨"d2", [⟨⟨0, "シート1"⟩⟩]⟩
    getResp := fun i _ =>
      if i = 0 then .ok ⟨"", []⟩
      else .ok ⟨"d2", [⟨⟨0, "シート1"⟩⟩]⟩
    copyResp := fun i => .ok ⟨Int.ofNat i, ""⟩
    batchResp := fun _ => .ok ()
    valuesResp := fun _ => .ok ()
    nowYear := 2026
    nowMonth := 10 }

/-- A concrete environment in which every call succeeds and the source
spreadsheet has exactly one sheet (titled 雛形). -/
def envOneSheet : Env :=
  { createResp := .ok ⟨"d", [⟨⟨0, "シート1"⟩⟩]⟩
    getResp := fun i _ =>
      if i = 0 then .ok ⟨"", [⟨⟨1, "雛形"⟩⟩]⟩
      else .ok ⟨"d", [⟨⟨7, "雛形"⟩⟩]⟩
    copyResp := fun i => .ok ⟨Int.ofNat (100 + i), "雛形のコピー"⟩
    batchResp := fun _ => .ok ()
    valuesResp := fun _ => .ok ()
    nowYear := 2026
    nowMonth := 10 }

/-- A concrete environment in which the create call answers a
spreadsheet with no sheets and the source spreadsheet also has no
sheets; every call succeeds. -/
def envC8 : Env :=
  { createResp := .ok ⟨"d8", []⟩
    getResp := fun i _ =>
      if i = 0 then .ok ⟨"", []⟩
      else .ok ⟨"d8", [⟨⟨0, "シート1"⟩⟩]⟩
    copyResp := fun i => .ok ⟨Int.ofNat i, ""⟩
    batchResp := fun _ => .ok ()
    valuesResp := fun _ => .ok ()
    nowYear := 2026
    nowMonth := 10 }

/-- A concrete environment in which the create call answers a
spreadsheet with no sheets while the source spreadsheet has one sheet;
every call succeeds. -/
def envC9 : Env :=
  { createResp := .ok ⟨"d9", []⟩
    getResp := fun i _ =>
      if i = 0 then .ok ⟨"", [⟨⟨1, "一"⟩⟩]⟩
      else .ok ⟨"d9", [⟨⟨1, "一"⟩⟩]⟩
    copyResp := fun i => .ok ⟨Int.ofNat i, "一のコピー"⟩
    batchResp := fun _ => .ok ()
    valuesResp := fun _ => .ok ()
    nowYear := 2026
    nowMonth := 10 }

/-- A concrete auth environment in which `token.json` reads and decodes
successfully. -/
def authEnvOk : AuthEnv :=
  { tokenFileRead := .ok "cached-token-json"
    decodeToken := fun s => .ok ⟨s⟩
    webToken := ⟨"web-token"⟩ }

/-- A concrete auth environment in which opening `token.json` fails. -/
def authEnvFail : AuthEnv :=
  { tokenFileRead := .error ⟨"open token.json: no such file"⟩
    decodeToken := fun s => .ok ⟨s⟩
    webToken := ⟨"web-token"⟩ }

theorem copyLoop_of_ok (env : Env) (destId : String)
    (ps : Nat → SheetProperties)
    (hc : ∀ i, env.copyResp i = .ok (ps i))
    (hb : ∀ i, env.batchResp i = .ok ()) :
    ∀ (sheets : List Sheet) (ci bi : Nat),
      copyLoop env destId sheets ci bi =
        (expectedCopy destId ps sheets ci,
         some (ci + sheets.length, bi + sheets.length)) := by
  intro sheets
  induction sheets with
  | nil => intro ci bi; simp [copyLoop, expectedCopy]
  | cons sheet rest ih =>
    intro ci bi
    simp only [copyLoop, expectedCopy, hc ci, hb bi, ih (ci + 1) (bi + 1)]
    have h2 : ci + 1 + rest.length = ci + (sheet :: rest).length := by
      simp [List.length_cons]; omega
    have h3 : bi + 1 + rest.length = bi + (sheet :: rest).length := by
      simp [List.length_cons]; omega
    rw [h2, h3]

theorem updateLoop_of_ok (env : Env) (destId : String) (year month : Int)
    (hv : ∀ i, env.valuesResp i = .ok ()) :
    ∀ (sheets : List Sheet) (vi : Nat),
      updateLoop env destId year month sheets vi =
        (sheets.map fun sheet => (valuesCallOf destId year month sheet, true),
         true) := by
  intro sheets
  induction sheets with
  | nil => intro vi; simp [updateLoop]
  | cons sheet rest ih =>
    intro vi
    simp [updateLoop, hv vi, ih (vi + 1)]

theorem finishPhase_of_ok (env : Env) (destId : String)
    (dest : Spreadsheet)
    (hg1 : env.getResp 1 destId = .ok dest)
    (hv : ∀ i, env.valuesResp i = .ok ())
    (done : List (ApiCall × Bool)) :
    finishPhase env destId done =
      (done ++ (ApiCall.get destId, true)
        :: (dest.sheets.map fun sheet =>
             (valuesCallOf destId env.nowYear env.nowMonth sheet, true)),
       Outcome.ok) := by
  simp [finishPhase, getSpreadsheetFn, hg1, updateCellsYearMonthFn,
    updateLoop_of_ok env destId env.nowYear env.nowMonth hv dest.sheets 0]

theorem quickstartRun_of_ok (env : Env)
    (newSheet src dest : Spreadsheet) (b : Sheet)
    (ps : Nat → SheetProperties)
    (hcr : env.createResp = .ok newSheet)
    (hg0 : env.getResp 0 sourceSpreadsheetId = .ok src)
    (hc : ∀ i, env.copyResp i = .ok (ps i))
    (hb : ∀ i, env.batchResp i = .ok ())
    (hg1 : env.getResp 1 newSheet.spreadsheetId = .ok dest)
    (hv : ∀ i, env.valuesResp i = .ok ())
    (hhd : newSheet.sheets.head? = some b) :
    quickstartRun env =
      ((ApiCall.create newSpreadsheetTitle, true)
        :: (ApiCall.get sourceSpreadsheetId, true)
        :: (expectedCopy newSheet.spreadsheetId ps src.sheets 0
            ++ (if src.sheets.isEmpty then []
                else [(ApiCall.batchUpdate newSheet.spreadsheetId
                        [BatchRequest.deleteSheet b.properties.sheetId],
                       true)])
            ++ (ApiCall.get newSheet.spreadsheetId, true)
              :: (dest.sheets.map fun sheet =>
                   (valuesCallOf newSheet.spreadsheetId env.nowYear
                      env.nowMonth sheet, true))),
       Outcome.ok) := by
  have hcopy := copyLoop_of_ok env newSheet.spreadsheetId ps hc hb src.sheets 0 0
  by_cases hse : src.sheets.isEmpty
  · simp [quickstartRun, createSpreadsheetFn, hcr, getSpreadsheetFn, hg0,
      copySpreadsheetFn, hcopy, hse,
      finishPhase_of_ok env newSheet.spreadsheetId dest hg1 hv]
  · simp [quickstartRun, createSpreadsheetFn, hcr, getSpreadsheetFn, hg0,
      copySpreadsheetFn, hcopy, hse, deleteBlankSheetFn, hhd, hb,
      finishPhase_of_ok env newSheet.spreadsheetId dest hg1 hv]

theorem stopsAtFirstFailure_of_allOk :
    ∀ t : List (ApiCall × Bool), allOk t = true →
      stopsAtFirstFailure t = true := by
  intro t
  induction t with
  | nil => intro _; rfl
  | cons p rest ih =>
    intro h
    have hp : p.2 = true := by
      have := (List.all_eq_true.mp h) p (List.mem_cons_self p rest)
      simpa using this
    have hr : allOk rest = true := by
      simp only [allOk, List.all_cons, Bool.and_eq_true] at h
      exact h.2
    cases rest with
    | nil => rfl
    | cons q l =>
      simp only [stopsAtFirstFailure, hp, Bool.true_and]
      exact ih hr

theorem stopsAtFirstFailure_append :
    ∀ t1 t2 : List (ApiCall × Bool), allOk t1 = true →
      stopsAtFirstFailure t2 = true →
      stopsAtFirstFailure (t1 ++ t2) = true := by
  intro t1
  induction t1 with
  | nil => intro t2 _ h2; simpa using h2
  | cons p rest ih =>
    intro t2 h1 h2
    have hp : p.2 = true := by
      have := (List.all_eq_true.mp h1) p (List.mem_cons_self p rest)
      simpa using this
    have hr : allOk rest = true := by
      simp only [allOk, List.all_cons, Bool.and_eq_true] at h1
      exact h1.2
    cases hrt : rest ++ t2 with
    | nil => simp [List.cons_append, hrt, stopsAtFirstFailure]
    | cons q l =>
      have := ih t2 hr h2
      rw [hrt] at this
      simp [List.cons_append, hrt, stopsAtFirstFailure, hp, this]

theorem not_last_false_of_allOk (t : List (ApiCall × Bool)) (c : ApiCall)
    (h : allOk t = true) (hl : t.getLast? = some (c, false)) : False := by
  have hm : (c, false) ∈ t := List.mem_of_mem_getLast? hl
  have := (List.all_eq_true.mp h) (c, false) hm
  simp at this

theorem stopsAtFirstFailure_cons_true (p : ApiCall × Bool)
    (t : List (ApiCall × Bool)) (hp : p.2 = true)
    (h : stopsAtFirstFailure t = true) :
    stopsAtFirstFailure (p :: t) = true := by
  cases t with
  | nil => rfl
  | cons q l => simp [stopsAtFirstFailure, hp, h]

theorem copyLoop_shape (env : Env) (d : String) :
    ∀ (sheets : List Sheet) (ci bi : Nat),
      ((copyLoop env d sheets ci bi).2 ≠ none ∧
        allOk (copyLoop env d sheets ci bi).1 = true)
      ∨ ((copyLoop env d sheets ci bi).2 = none ∧
          stopsAtFirstFailure (copyLoop env d sheets ci bi).1 = true ∧
          ∃ c, (copyLoop env d sheets ci bi).1.getLast? = some (c, false)) := by
  intro sheets
  induction sheets with
  | nil => intro ci bi; left; simp [copyLoop, allOk]
  | cons sheet rest ih =>
    intro ci bi
    cases hcr : env.copyResp ci with
    | error e =>
      right
      have ht : copyLoop env d (sheet :: rest) ci bi =
          ([(ApiCall.copyTo sourceSpreadsheetId sheet.properties.sheetId d,
             false)], none) := by
        simp [copyLoop, hcr]
      rw [ht]
      exact ⟨rfl, rfl,
        ApiCall.copyTo sourceSpreadsheetId sheet.properties.sheetId d,
        by simp⟩
    | ok resp =>
      cases hbr : env.batchResp bi with
      | error e =>
        right
        have ht : copyLoop env d (sheet :: rest) ci bi =
            ([(ApiCall.copyTo sourceSpreadsheetId sheet.properties.sheetId d,
               true),
              (ApiCall.batchUpdate d
                [BatchRequest.updateSheetProperties
                  ⟨resp.sheetId, trimSuffix resp.title copySuffix, "title"⟩],
               false)], none) := by
          simp [copyLoop, hcr, hbr]
        rw [ht]
        exact ⟨rfl, rfl,
          ApiCall.batchUpdate d
            [BatchRequest.updateSheetProperties
              ⟨resp.sheetId, trimSuffix resp.title copySuffix, "title"⟩],
          by simp⟩
      | ok u =>
        have ht : copyLoop env d (sheet :: rest) ci bi =
            ((ApiCall.copyTo sourceSpreadsheetId sheet.properties.sheetId d,
              true)
              :: (ApiCall.batchUpdate d
                    [BatchRequest.updateSheetProperties
                      ⟨resp.sheetId, trimSuffix resp.title copySuffix,
                        "title"⟩], true)
              :: (copyLoop env d rest (ci + 1) (bi + 1)).1,
             (copyLoop env d rest (ci + 1) (bi + 1)).2) := by
          simp [copyLoop, hcr, hbr]
        rw [ht]
        rcases ih (ci + 1) (bi + 1) with ⟨hsome, hall⟩ |
          ⟨hnone, hstops, c, hlast⟩
        · left
          refine ⟨hsome, ?_⟩
          simpa [allOk] using hall
        · right
          have hne : (copyLoop env d rest (ci + 1) (bi + 1)).1 ≠ [] := by
            intro hnil
            rw [hnil] at hlast
            simp at hlast
          refine ⟨hnone, ?_, c, ?_⟩
          · exact stopsAtFirstFailure_cons_true _ _ rfl
              (stopsAtFirstFailure_cons_true _ _ rfl hstops)
          · obtain ⟨q, l, hql⟩ := List.exists_cons_of_ne_nil hne
            rw [hql] at hlast ⊢
            rw [List.getLast?_cons_cons, List.getLast?_cons_cons]
            exact hlast

theorem allOk_append (t1 t2 : List (ApiCall × Bool)) :
    allOk (t1 ++ t2) = (allOk t1 && allOk t2) := by
  simp [allOk, List.all_append]

theorem updateLoop_shape (env : Env) (d : String) (y m : Int) :
    ∀ (sheets : List Sheet) (vi : Nat),
      ((updateLoop env d y m sheets vi).2 = true ∧
        allOk (updateLoop env d y m sheets vi).1 = true)
      ∨ ((updateLoop env d y m sheets vi).2 = false ∧
          stopsAtFirstFailure (updateLoop env d y m sheets vi).1 = true ∧
          ∃ c, (updateLoop env d y m sheets vi).1.getLast? =
            some (c, false)) := by
  intro sheets
  induction sheets with
  | nil => intro vi; left; simp [updateLoop, allOk]
  | cons sheet rest ih =>
    intro vi
    cases hvr : env.valuesResp vi with
    | error e =>
      right
      have ht : updateLoop env d y m (sheet :: rest) vi =
          ([(valuesCallOf d y m sheet, false)], false) := by
        simp [updateLoop, hvr]
      rw [ht]
      exact ⟨rfl, rfl, valuesCallOf d y m sheet, by simp⟩
    | ok u =>
      have ht : updateLoop env d y m (sheet :: rest) vi =
          ((valuesCallOf d y m sheet, true)
            :: (updateLoop env d y m rest (vi + 1)).1,
           (updateLoop env d y m rest (vi + 1)).2) := by
        simp [updateLoop, hvr]
      rw [ht]
      rcases ih (vi + 1) with ⟨htrue, hall⟩ | ⟨hfalse, hstops, c, hlast⟩
      · left
        refine ⟨htrue, ?_⟩
        simpa [allOk] using hall
      · right
        have hne : (updateLoop env d y m rest (vi + 1)).1 ≠ [] := by
          intro hnil
          rw [hnil] at hlast
          simp at hlast
        refine ⟨hfalse, stopsAtFirstFailure_cons_true _ _ rfl hstops, c, ?_⟩
        obtain ⟨q, l, hql⟩ := List.exists_cons_of_ne_nil hne
        rw [hql] at hlast ⊢
        rw [List.getLast?_cons_cons]
        exact hlast

theorem finishPhase_shape (env : Env) (d : String)
    (done : List (ApiCall × Bool)) (hdone : allOk done = true) :
    stopsAtFirstFailure (finishPhase env d done).1 = true ∧
      ((finishPhase env d done).2 = Outcome.fatal ↔
        ∃ c, (finishPhase env d done).1.getLast? = some (c, false)) := by
  cases hg : env.getResp 1 d with
  | error e =>
    have ht : finishPhase env d done =
        (done ++ [(ApiCall.get d, false)], Outcome.fatal) := by
      simp [finishPhase, getSpreadsheetFn, hg]
    rw [ht]
    refine ⟨stopsAtFirstFailure_append done _ hdone rfl, ?_⟩
    simp [List.getLast?_append_of_ne_nil]
  | ok dest =>
    rcases updateLoop_shape env d env.nowYear env.nowMonth dest.sheets 0 with
      ⟨htrue, hall⟩ | ⟨hfalse, hstops, c, hlast⟩
    · have ht : finishPhase env d done =
          (done ++ (ApiCall.get d, true)
            :: (updateLoop env d env.nowYear env.nowMonth dest.sheets 0).1,
           Outcome.ok) := by
        simp [finishPhase, getSpreadsheetFn, hg, updateCellsYearMonthFn,
          htrue]
      rw [ht]
      have hallfull : allOk (done ++ (ApiCall.get d, true)
          :: (updateLoop env d env.nowYear env.nowMonth dest.sheets 0).1) =
          true := by
        rw [allOk_append, hdone]
        simpa [allOk] using hall
      refine ⟨stopsAtFirstFailure_of_allOk _ hallfull, ?_⟩
      constructor
      · intro hcon; exact absurd hcon (by simp)
      · rintro ⟨c, hc⟩
        exact absurd (not_last_false_of_allOk _ c hallfull hc) (by simp)
    · have ht : finishPhase env d done =
          (done ++ (ApiCall.get d, true)
            :: (updateLoop env d env.nowYear env.nowMonth dest.sheets 0).1,
           Outcome.fatal) := by
        simp [finishPhase, getSpreadsheetFn, hg, updateCellsYearMonthFn,
          hfalse]
      rw [ht]
      have hne : (updateLoop env d env.nowYear env.nowMonth dest.sheets 0).1
          ≠ [] := by
        intro hnil
        rw [hnil] at hlast
        simp at hlast
      constructor
      · exact stopsAtFirstFailure_append done _ hdone
          (stopsAtFirstFailure_cons_true _ _ rfl hstops)
      · constructor
        · intro _
          refine ⟨c, ?_⟩
          rw [List.getLast?_append_of_ne_nil done (by simp)]
          obtain ⟨q, l, hql⟩ := List.exists_cons_of_ne_nil hne
          rw [hql] at hlast ⊢
          rw [List.getLast?_cons_cons]
          exact hlast
        · intro _; rfl

theorem quickstartRun_shape (env : Env) :
    stopsAtFirstFailure (quickstartRun env).1 = true ∧
      ((quickstartRun env).2 = Outcome.fatal ↔
        ∃ c, (quickstartRun env).1.getLast? = some (c, false)) := by
  cases hcr : env.createResp with
  | error e =>
    have ht : quickstartRun env =
        ([(ApiCall.create newSpreadsheetTitle, false)], Outcome.fatal) := by
      simp [quickstartRun, createSpreadsheetFn, hcr]
    rw [ht]
    exact ⟨rfl, ⟨fun _ => ⟨ApiCall.create newSpreadsheetTitle, by simp⟩,
      fun _ => rfl⟩⟩
  | ok newSheet =>
    cases hg0 : env.getResp 0 sourceSpreadsheetId with
    | error e =>
      have ht : quickstartRun env =
          ([(ApiCall.create newSpreadsheetTitle, true),
            (ApiCall.get sourceSpreadsheetId, false)], Outcome.fatal) := by
        simp [quickstartRun, createSpreadsheetFn, hcr, getSpreadsheetFn, hg0]
      rw [ht]
      exact ⟨rfl, ⟨fun _ => ⟨ApiCall.get sourceSpreadsheetId, by simp⟩,
        fun _ => rfl⟩⟩
    | ok src =>
      rcases copyLoop_shape env newSheet.spreadsheetId src.sheets 0 0 with
        ⟨hsome, hall⟩ | ⟨hnone, hstops, c, hlast⟩
      · cases hcl : (copyLoop env newSheet.spreadsheetId src.sheets 0 0).2 with
        | none => exact absurd hcl hsome
        | some counts =>
          by_cases hse : src.sheets.isEmpty
          · have ht : quickstartRun env =
                finishPhase env newSheet.spreadsheetId
                  ((ApiCall.create newSpreadsheetTitle, true)
                    :: (ApiCall.get sourceSpreadsheetId, true)
                    :: (copyLoop env newSheet.spreadsheetId
                          src.sheets 0 0).1) := by
              simp [quickstartRun, createSpreadsheetFn, hcr,
                getSpreadsheetFn, hg0, copySpreadsheetFn, hcl, hse]
            rw [ht]
            exact finishPhase_shape env newSheet.spreadsheetId _
              (by simpa [allOk] using hall)
          · cases hhd : newSheet.sheets.head? with
            | none =>
              have ht : quickstartRun env =
                  ((ApiCall.create newSpreadsheetTitle, true)
                    :: (ApiCall.get sourceSpreadsheetId, true)
                    :: (copyLoop env newSheet.spreadsheetId
                          src.sheets 0 0).1,
                   Outcome.crash) := by
                simp [quickstartRun, createSpreadsheetFn, hcr,
                  getSpreadsheetFn, hg0, copySpreadsheetFn, hcl, hse,
                  deleteBlankSheetFn, hhd]
              rw [ht]
              have hallfull : allOk
                  ((ApiCall.create newSpreadsheetTitle, true)
                    :: (ApiCall.get sourceSpreadsheetId, true)
                    :: (copyLoop env newSheet.spreadsheetId
                          src.sheets 0 0).1) = true := by
                simpa [allOk] using hall
              refine ⟨stopsAtFirstFailure_of_allOk _ hallfull, ?_⟩
              constructor
              · intro hcon; exact absurd hcon (by simp)
              · rintro ⟨c2, hc2⟩
                exact absurd (not_last_false_of_allOk _ c2 hallfull hc2)
                  (by simp)
            | some blank =>
              cases hbr : env.batchResp counts.2 with
              | error e2 =>
                have ht : quickstartRun env =
                    ((ApiCall.create newSpreadsheetTitle, true)
                      :: (ApiCall.get sourceSpreadsheetId, true)
                      :: ((copyLoop env newSheet.spreadsheetId
                            src.sheets 0 0).1
                          ++ [(ApiCall.batchUpdate newSheet.spreadsheetId
                                [BatchRequest.deleteSheet
                                  blank.properties.sheetId], false)]),
                     Outcome.fatal) := by
                  simp [quickstartRun, createSpreadsheetFn, hcr,
                    getSpreadsheetFn, hg0, copySpreadsheetFn, hcl, hse,
                    deleteBlankSheetFn, hhd, hbr]
                rw [ht]
                constructor
                · refine stopsAtFirstFailure_cons_true _ _ rfl
                    (stopsAtFirstFailure_cons_true _ _ rfl ?_)
                  exact stopsAtFirstFailure_append _ _ hall rfl
                · refine ⟨fun _ => ⟨ApiCall.batchUpdate newSheet.spreadsheetId
                    [BatchRequest.deleteSheet blank.properties.sheetId],
                    ?_⟩, fun _ => rfl⟩
                  rw [show (ApiCall.create newSpreadsheetTitle, true)
                      :: (ApiCall.get sourceSpreadsheetId, true)
                      :: ((copyLoop env newSheet.spreadsheetId
                            src.sheets 0 0).1
                          ++ [(ApiCall.batchUpdate newSheet.spreadsheetId
                                [BatchRequest.deleteSheet
                                  blank.properties.sheetId], false)]) =
                      ((ApiCall.create newSpreadsheetTitle, true)
                        :: (ApiCall.get sourceSpreadsheetId, true)
                        :: (copyLoop env newSheet.spreadsheetId
                              src.sheets 0 0).1)
                      ++ [(ApiCall.batchUpdate newSheet.spreadsheetId
                            [BatchRequest.deleteSheet
                              blank.properties.sheetId], false)]
                    from by simp]
                  rw [List.getLast?_append_of_ne_nil _ (by simp)]
                  simp
              | ok u =>
                have ht : quickstartRun env =
                    finishPhase env newSheet.spreadsheetId
                      ((ApiCall.create newSpreadsheetTitle, true)
                        :: (ApiCall.get sourceSpreadsheetId, true)
                        :: ((copyLoop env newSheet.spreadsheetId
                              src.sheets 0 0).1
                            ++ [(ApiCall.batchUpdate newSheet.spreadsheetId
                                  [BatchRequest.deleteSheet
                                    blank.properties.sheetId], true)])) := by
                  simp [quickstartRun, createSpreadsheetFn, hcr,
                    getSpreadsheetFn, hg0, copySpreadsheetFn, hcl, hse,
                    deleteBlankSheetFn, hhd, hbr]
                rw [ht]
                refine finishPhase_shape env newSheet.spreadsheetId _ ?_
                have hall2 : (copyLoop env newSheet.spreadsheetId
                    src.sheets 0 0).1.all (fun p => p.2) = true := hall
                simp [allOk, List.all_append, hall2]
      · have ht : quickstartRun env =
            ((ApiCall.create newSpreadsheetTitle, true)
              :: (ApiCall.get sourceSpreadsheetId, true)
              :: (copyLoop env newSheet.spreadsheetId src.sheets 0 0).1,
             Outcome.fatal) := by
          simp [quickstartRun, createSpreadsheetFn, hcr, getSpreadsheetFn,
            hg0, copySpreadsheetFn, hnone]
        rw [ht]
        have hne : (copyLoop env newSheet.spreadsheetId src.sheets 0 0).1
            ≠ [] := by
          intro hnil
          rw [hnil] at hlast
          simp at hlast
        constructor
        · exact stopsAtFirstFailure_cons_true _ _ rfl
            (stopsAtFirstFailure_cons_true _ _ rfl hstops)
        · refine ⟨fun _ => ⟨c, ?_⟩, fun _ => rfl⟩
          obtain ⟨q, l, hql⟩ := List.exists_cons_of_ne_nil hne
          rw [hql] at hlast ⊢
          rw [List.getLast?_cons_cons, List.getLast?_cons_cons]
          exact hlast

theorem trimSuffix_toList_of_suffix (s suffix : String)
    (h : suffix.toList <:+ s.toList) :
    (trimSuffix s suffix).toList ++ suffix.toList = s.toList := by
  obtain ⟨p, hp⟩ := h
  have hb : suffix.toList.isSuffixOf s.toList = true :=
    List.isSuffixOf_iff_suffix.mpr ⟨p, hp⟩
  unfold trimSuffix
  rw [if_pos hb]
  show s.toList.take (s.toList.length - suffix.toList.length)
      ++ suffix.toList = s.toList
  have hl : s.toList.length - suffix.toList.length = p.length := by
    rw [← hp]; simp
  rw [hl, ← hp, List.take_left]

theorem trimSuffix_of_not_suffix (s suffix : String)
    (h : ¬ suffix.toList <:+ s.toList) : trimSuffix s suffix = s := by
  have hb : ¬ suffix.toList.isSuffixOf s.toList = true := fun hc =>
    h (List.isSuffixOf_iff_suffix.mp hc)
  unfold trimSuffix
  rw [if_neg hb]

theorem expectedCopy_filter_values (d : String) (ps : Nat → SheetProperties) :
    ∀ (sheets : List Sheet) (i : Nat),
      ((expectedCopy d ps sheets i).map Prod.fst).filter
        isValuesUpdateCall = [] := by
  intro sheets
  induction sheets with
  | nil => intro i; simp [expectedCopy]
  | cons sheet rest ih =>
    intro i
    simp [expectedCopy, isValuesUpdateCall, ih (i + 1)]

theorem expectedCopy_filter_delete (d : String) (ps : Nat → SheetProperties) :
    ∀ (sheets : List Sheet) (i : Nat),
      ((expectedCopy d ps sheets i).map Prod.fst).filter
        isDeleteCall = [] := by
  intro sheets
  induction sheets with
  | nil => intro i; simp [expectedCopy]
  | cons sheet rest ih =>
    intro i
    simp [expectedCopy, isDeleteCall, ih (i + 1)]

theorem expectedCopy_countP_copy (d : String) (ps : Nat → SheetProperties) :
    ∀ (sheets : List Sheet) (i : Nat),
      ((expectedCopy d ps sheets i).map Prod.fst).countP
        isCopyCall = sheets.length := by
  intro sheets
  induction sheets with
  | nil => intro i; simp [expectedCopy]
  | cons sheet rest ih =>
    intro i
    simp [expectedCopy, isCopyCall, List.countP_cons, ih (i + 1)]

theorem expectedCopy_countP_batch (d : String) (ps : Nat → SheetProperties) :
    ∀ (sheets : List Sheet) (i : Nat),
      ((expectedCopy d ps sheets i).map Prod.fst).countP
        isBatchCall = sheets.length := by
  intro sheets
  induction sheets with
  | nil => intro i; simp [expectedCopy]
  | cons sheet rest ih =>
    intro i
    simp [expectedCopy, isBatchCall, List.countP_cons, ih (i + 1)]

theorem expectedCopy_countP_create (d : String) (ps : Nat → SheetProperties) :
    ∀ (sheets : List Sheet) (i : Nat),
      ((expectedCopy d ps sheets i).map Prod.fst).countP
        isCreateCall = 0 := by
  intro sheets
  induction sheets with
  | nil => intro i; simp [expectedCopy]
  | cons sheet rest ih =>
    intro i
    simp [expectedCopy, isCreateCall, List.countP_cons, ih (i + 1)]

theorem expectedCopy_countP_get (d : String) (ps : Nat → SheetProperties) :
    ∀ (sheets : List Sheet) (i : Nat),
      ((expectedCopy d ps sheets i).map Prod.fst).countP
        isGetCall = 0 := by
  intro sheets
  induction sheets with
  | nil => intro i; simp [expectedCopy]
  | cons sheet rest ih =>
    intro i
    simp [expectedCopy, isGetCall, List.countP_cons, ih (i + 1)]

theorem expectedCopy_countP_values (d : String) (ps : Nat → SheetProperties) :
    ∀ (sheets : List Sheet) (i : Nat),
      ((expectedCopy d ps sheets i).map Prod.fst).countP
        isValuesUpdateCall = 0 := by
  intro sheets
  induction sheets with
  | nil => intro i; simp [expectedCopy]
  | cons sheet rest ih =>
    intro i
    simp [expectedCopy, isValuesUpdateCall, List.countP_cons, ih (i + 1)]

theorem filter_values_map_valuesCall (d : String) (y m : Int) :
    ∀ sheets : List Sheet,
      ((sheets.map fun sheet => valuesCallOf d y m sheet).filter
          isValuesUpdateCall) =
        sheets.map fun sheet => valuesCallOf d y m sheet := by
  intro sheets
  induction sheets with
  | nil => simp
  | cons sheet rest ih => simp [valuesCallOf, isValuesUpdateCall, ih]

theorem filter_delete_map_valuesCall (d : String) (y m : Int) :
    ∀ sheets : List Sheet,
      ((sheets.map fun sheet => valuesCallOf d y m sheet).filter
          isDeleteCall) = [] := by
  intro sheets
  induction sheets with
  | nil => simp
  | cons sheet rest ih => simp [valuesCallOf, isDeleteCall, ih]

theorem countP_values_map_valuesCall (d : String) (y m : Int) :
    ∀ sheets : List Sheet,
      ((sheets.map fun sheet => valuesCallOf d y m sheet).countP
          isValuesUpdateCall) = sheets.length := by
  intro sheets
  induction sheets with
  | nil => simp
  | cons sheet rest ih =>
    simp [valuesCallOf, isValuesUpdateCall, List.countP_cons, ih]

theorem countP_other_map_valuesCall (d : String) (y m : Int)
    (p : ApiCall → Bool)
    (hp : ∀ a b c e, p (ApiCall.valuesUpdate a b c e) = false) :
    ∀ sheets : List Sheet,
      ((sheets.map fun sheet => valuesCallOf d y m sheet).countP p) = 0 := by
  intro sheets
  induction sheets with
  | nil => simp
  | cons sheet rest ih => simp [valuesCallOf, List.countP_cons, hp, ih]

theorem part000_eq_quickstart_of_create_fail (env : Env) (e : ApiErr)
    (hcr : env.createResp = .error e) :
    part000Run env = quickstartRun env := by
  simp [part000Run, quickstartRun, createSpreadsheetFn, hcr]

theorem part000_eq_quickstart_of_created_nonempty (env : Env)
    (newSheet : Spreadsheet) (hcr : env.createResp = .ok newSheet)
    (hnb : newSheet.sheets ≠ []) :
    part000Run env = quickstartRun env := by
  obtain ⟨b, brest, hbs⟩ := List.exists_cons_of_ne_nil hnb
  cases hg0 : env.getResp 0 sourceSpreadsheetId with
  | error e =>
    simp [part000Run, quickstartRun, createSpreadsheetFn, getSpreadsheetFn,
      hcr, hg0]
  | ok src =>
    cases hcl : (copyLoop env newSheet.spreadsheetId src.sheets 0 0).2 with
    | none =>
      simp [part000Run, quickstartRun, createSpreadsheetFn, getSpreadsheetFn,
        copySpreadsheetFn, hcr, hg0, hcl]
    | some counts =>
      by_cases hse : src.sheets.isEmpty
      · simp [part000Run, quickstartRun, createSpreadsheetFn,
          getSpreadsheetFn, copySpreadsheetFn, hcr, hg0, hcl, hse, hbs]
      · cases hbr : env.batchResp counts.2 with
        | error e2 =>
          simp [part000Run, quickstartRun, createSpreadsheetFn,
            getSpreadsheetFn, copySpreadsheetFn, deleteBlankSheetFn,
            hcr, hg0, hcl, hse, hbs, hbr]
        | ok u =>
          simp [part000Run, quickstartRun, createSpreadsheetFn,
            getSpreadsheetFn, copySpreadsheetFn, deleteBlankSheetFn,
            hcr, hg0, hcl, hse, hbs, hbr]

theorem part000_eq_quickstart_of_get_fail (env : Env)
    (newSheet : Spreadsheet) (e : ApiErr)
    (hcr : env.createResp = .ok newSheet)
    (hg0 : env.getResp 0 sourceSpreadsheetId = .error e) :
    part000Run env = quickstartRun env := by
  simp [part000Run, quickstartRun, createSpreadsheetFn, getSpreadsheetFn,
    hcr, hg0]

theorem part000_eq_quickstart_of_source_nonempty (env : Env)
    (newSheet src : Spreadsheet)
    (hcr : env.createResp = .ok newSheet)
    (hg0 : env.getResp 0 sourceSpreadsheetId = .ok src)
    (hsrc : src.sheets ≠ []) :
    part000Run env = quickstartRun env := by
  obtain ⟨s0, srest, hss⟩ := List.exists_cons_of_ne_nil hsrc
  cases hhd : newSheet.sheets.head? with
  | some b =>
    apply part000_eq_quickstart_of_created_nonempty env newSheet hcr
    intro hnil
    rw [hnil] at hhd
    simp at hhd
  | none =>
    have hnil : newSheet.sheets = [] := by
      cases hx : newSheet.sheets with
      | nil => rfl
      | cons a l => rw [hx] at hhd; simp at hhd
    cases hcl : (copyLoop env newSheet.spreadsheetId src.sheets 0 0).2 with
    | none =>
      simp [part000Run, quickstartRun, createSpreadsheetFn,
        getSpreadsheetFn, copySpreadsheetFn, hcr, hg0, hcl, hnil]
    | some counts =>
      have hse : src.sheets.isEmpty = false := by rw [hss]; rfl
      simp [part000Run, quickstartRun, createSpreadsheetFn,
        getSpreadsheetFn, copySpreadsheetFn, deleteBlankSheetFn,
        hcr, hg0, hcl, hnil, hse]

/-- C5: for every copied sheet, the title the copy is renamed to is the
title answered by the `CopyTo` call with the suffix のコピー removed
when present (removing it means the new title followed by the suffix is
the answered title) and the answered title unchanged when absent, and
the rename request is a one-request batch updating only the `title`
field (visible in `expectedCopy`, whose rename entry carries the field
mask `"title"`). -/
theorem C5_rename_strips_copy_suffix :
    (∀ s : String,
        (copySuffix.toList <:+ s.toList →
          (trimSuffix s copySuffix).toList ++ copySuffix.toList = s.toList)
      ∧ (¬ copySuffix.toList <:+ s.toList → trimSuffix s copySuffix = s))
  ∧ (∀ (env : Env) (d : String) (ps : Nat → SheetProperties),
      (∀ i, env.copyResp i = .ok (ps i)) →
      (∀ i, env.batchResp i = .ok ()) →
      ∀ (sheets : List Sheet) (ci bi : Nat),
        (copyLoop env d sheets ci bi).1 = expectedCopy d ps sheets ci) := by
  constructor
  · intro s
    exact ⟨trimSuffix_toList_of_suffix s copySuffix,
      trimSuffix_of_not_suffix s copySuffix⟩
  · intro env d ps hc hb sheets ci bi
    rw [copyLoop_of_ok env d ps hc hb sheets ci bi]

/-- Witness for C5 at a concrete input: stripping のコピー from
雛形のコピー, and the copy-phase trace of a one-sheet source under
`envOneSheet`. -/
theorem C5_rename_strips_copy_suffix_witness :
    ((trimSuffix "雛形のコピー" copySuffix).toList ++ copySuffix.toList =
      "雛形のコピー".toList)
  ∧ (copyLoop envOneSheet "d" [⟨⟨1, "雛形"⟩⟩] 0 0).1 =
      expectedCopy "d"
        (fun i => ⟨Int.ofNat (100 + i), "雛形のコピー"⟩) [⟨⟨1, "雛形"⟩⟩] 0 :=
  ⟨(C5_rename_strips_copy_suffix.1 "雛形のコピー").1 (by decide),
   C5_rename_strips_copy_suffix.2 envOneSheet "d"
     (fun i => ⟨Int.ofNat (100 + i), "雛形のコピー"⟩)
     (fun _ => rfl) (fun _ => rfl) [⟨⟨1, "雛形"⟩⟩] 0 0⟩

/-- C6: error propagation is abort-on-first-failure.  In every
environment, every call of the issued trace except possibly the last
received a successful response (`stopsAtFirstFailure`), and the run
ends in `log.Fatalf` exactly when the last issued call received a
failed response; hence after a failed call no further call (in
particular no retry of it) is ever issued. -/
theorem C6_abort_on_first_failure (env : Env) :
    stopsAtFirstFailure (quickstartRun env).1 = true ∧
      ((quickstartRun env).2 = Outcome.fatal ↔
        ∃ c, (quickstartRun env).1.getLast? = some (c, false)) :=
  quickstartRun_shape env

/-- C7: `getClient` uses the token decoded from `token.json` whenever
reading and decoding succeed, and runs the interactive web flow only
when that fails, saving the freshly obtained token to `token.json`
(the `saveTokenFile` event) before the client is returned. -/
theorem C7_token_cache (env : AuthEnv) :
    (∀ tok, tokenFromFileRun env = .ok tok →
        getClientRun env = ([AuthEvent.readTokenFile], tok))
  ∧ (∀ e, tokenFromFileRun env = .error e →
        getClientRun env =
          ([AuthEvent.readTokenFile, AuthEvent.webFlow,
            AuthEvent.saveTokenFile env.webToken], env.webToken)) := by
  constructor
  · intro tok h
    simp [getClientRun, h]
  · intro e h
    simp [getClientRun, h]

/-- Witness for C7: a successful read uses the cached token with no web
flow and no save; a failed read triggers the web flow and saves the web
token. -/
theorem C7_token_cache_witness :
    getClientRun authEnvOk = ([AuthEvent.readTokenFile],
      ⟨"cached-token-json"⟩)
  ∧ getClientRun authEnvFail =
      ([AuthEvent.readTokenFile, AuthEvent.webFlow,
        AuthEvent.saveTokenFile ⟨"web-token"⟩], ⟨"web-token"⟩) :=
  ⟨(C7_token_cache authEnvOk).1 ⟨"cached-token-json"⟩ rfl,
   (C7_token_cache authEnvFail).2 ⟨"open token.json: no such file"⟩ rfl⟩

/-- C10: the declared error returns of `copySpreadsheet`,
`deleteBlankSheet` and `updateCellsYearMonth` are vacuous: on every
input each function either aborts the process (or, for
`deleteBlankSheet`, panics) or returns with the error value `nil`
(`none`); no input makes any of them return a non-`nil` error. -/
theorem C10_error_returns_vacuous :
    (∀ (env : Env) (src : Spreadsheet) (d : String) (ci bi : Nat),
        (copySpreadsheetFn env src d ci bi).2 = FnRes.aborted ∨
        ∃ counts, (copySpreadsheetFn env src d ci bi).2 =
          FnRes.returned none counts)
  ∧ (∀ (env : Env) (newSheet : Spreadsheet) (d : String) (bi : Nat),
        (deleteBlankSheetFn env newSheet d bi).2 = FnRes.crash ∨
        (deleteBlankSheetFn env newSheet d bi).2 = FnRes.aborted ∨
        (deleteBlankSheetFn env newSheet d bi).2 = FnRes.returned none ())
  ∧ (∀ (env : Env) (dest : Spreadsheet) (d : String),
        (updateCellsYearMonthFn env dest d).2 = FnRes.aborted ∨
        (updateCellsYearMonthFn env dest d).2 =
          FnRes.returned none ()) := by
  refine ⟨?_, ?_, ?_⟩
  · intro env src d ci bi
    cases hcl : (copyLoop env d src.sheets ci bi).2 with
    | none => left; simp [copySpreadsheetFn, hcl]
    | some counts =>
      right
      exact ⟨counts, by simp [copySpreadsheetFn, hcl]⟩
  · intro env ns d bi
    cases hhd : ns.sheets.head? with
    | none => left; simp [deleteBlankSheetFn, hhd]
    | some blank =>
      cases hbr : env.batchResp bi with
      | error e => right; left; simp [deleteBlankSheetFn, hhd, hbr]
      | ok u => right; right; simp [deleteBlankSheetFn, hhd, hbr]
  · intro env dest d
    cases hu : (updateLoop env d env.nowYear env.nowMonth dest.sheets 0).2
      with
    | false => left; simp [updateCellsYearMonthFn, hu]
    | true => right; simp [updateCellsYearMonthFn, hu]

/-- C8 as stated is false: in the environment `envC8`, where the
create call answers a spreadsheet with no sheets and the source
spreadsheet has no sheets, `part_000` panics evaluating
`newSheet.Sheets[0]` after the (empty) copy phase while `quickstart.go`
completes normally, and the two programs issue different sequences of
API requests. -/
theorem C8_counterexample :
    (part000Run envC8).2 = Outcome.crash ∧
    (quickstartRun envC8).2 = Outcome.ok ∧
    (part000Run envC8).1.map Prod.fst ≠
      (quickstartRun envC8).1.map Prod.fst := by
  refine ⟨by decide, by decide, by decide⟩

/-- C8 amended: the two programs are behaviorally equivalent (same
annotated request trace and same outcome) in every environment except
exactly when the create call answers a spreadsheet with zero sheets
and the source spreadsheet also has zero sheets (the hypothesis states
that this combination does not occur); in that single divergence case
`part_000` panics evaluating `newSheet.Sheets[0]` while `quickstart.go`
completes normally.  In particular, with a zero-sheet create response
and a nonempty source both programs are still equivalent: both panic
after issuing identical requests. -/
theorem C8_equivalent_outside_divergence (env : Env)
    (h : ∀ newSheet src, env.createResp = .ok newSheet →
        env.getResp 0 sourceSpreadsheetId = .ok src →
        newSheet.sheets = [] → src.sheets ≠ []) :
    part000Run env = quickstartRun env := by
  cases hcr : env.createResp with
  | error e => exact part000_eq_quickstart_of_create_fail env e hcr
  | ok newSheet =>
    by_cases hnb : newSheet.sheets = []
    · cases hg0 : env.getResp 0 sourceSpreadsheetId with
      | error e =>
        exact part000_eq_quickstart_of_get_fail env newSheet e hcr hg0
      | ok src =>
        exact part000_eq_quickstart_of_source_nonempty env newSheet src
          hcr hg0 (h newSheet src hcr hg0 hnb)
    · exact part000_eq_quickstart_of_created_nonempty env newSheet hcr hnb

/-- Witness for C8's amended claim: the two programs coincide both in
`envOneSheet` (created destination has one sheet) and in `envC9`
(created destination has zero sheets, source nonempty — there both
programs panic after identical traces). -/
theorem C8_equivalent_outside_divergence_witness :
    part000Run envOneSheet = quickstartRun envOneSheet ∧
    part000Run envC9 = quickstartRun envC9 :=
  ⟨C8_equivalent_outside_divergence envOneSheet
     (fun ns src h1 h2 h3 => by
       have h1b : Except.ok (⟨"d", [⟨⟨0, "シート1"⟩⟩]⟩ : Spreadsheet) =
           Except.ok ns := h1
       cases h1b
       simp at h3),
   C8_equivalent_outside_divergence envC9
     (fun ns src h1 h2 h3 => by
       have h2b : Except.ok (⟨"", [⟨⟨1, "一"⟩⟩]⟩ : Spreadsheet) =
           Except.ok src := h2
       cases h2b
       simp)⟩

/-- C9: the `newSheet.Sheets[0]` access in `deleteBlankSheet` never
panics when the created spreadsheet has at least one sheet; when it has
zero sheets the access is out of bounds (the function panics before
issuing any call), and a full run in which the create call answers a
zero-sheet spreadsheet while the source is nonempty ends in a panic. -/
theorem C9_unchecked_first_sheet_access :
    (∀ (env : Env) (newSheet : Spreadsheet) (d : String) (bi : Nat),
        newSheet.sheets ≠ [] →
        (deleteBlankSheetFn env newSheet d bi).2 ≠ FnRes.crash)
  ∧ (∀ (env : Env) (newSheet : Spreadsheet) (d : String) (bi : Nat),
        newSheet.sheets = [] →
        (deleteBlankSheetFn env newSheet d bi).2 = FnRes.crash ∧
        (deleteBlankSheetFn env newSheet d bi).1 = [])
  ∧ (∀ (env : Env) (newSheet src : Spreadsheet)
        (ps : Nat → SheetProperties),
        env.createResp = .ok newSheet → newSheet.sheets = [] →
        env.getResp 0 sourceSpreadsheetId = .ok src →
        ¬ src.sheets.isEmpty →
        (∀ i, env.copyResp i = .ok (ps i)) →
        (∀ i, env.batchResp i = .ok ()) →
        (quickstartRun env).2 = Outcome.crash) := by
  refine ⟨?_, ?_, ?_⟩
  · intro env ns d bi hne
    obtain ⟨b, rest, hbs⟩ := List.exists_cons_of_ne_nil hne
    cases hbr : env.batchResp bi with
    | error e => simp [deleteBlankSheetFn, hbs, hbr]
    | ok u => simp [deleteBlankSheetFn, hbs, hbr]
  · intro env ns d bi hnil
    exact ⟨by simp [deleteBlankSheetFn, hnil],
      by simp [deleteBlankSheetFn, hnil]⟩
  · intro env ns src ps hcr hnil hg0 hse hc hb
    have hcopy := copyLoop_of_ok env ns.spreadsheetId ps hc hb src.sheets 0 0
    simp [quickstartRun, createSpreadsheetFn, hcr, getSpreadsheetFn, hg0,
      copySpreadsheetFn, hcopy, hse, deleteBlankSheetFn, hnil]

/-- Witness for C9 at concrete inputs: a one-sheet created spreadsheet
is safe, a zero-sheet one panics, and the full run under `envC9` ends
in a panic. -/
theorem C9_unchecked_first_sheet_access_witness :
    ((deleteBlankSheetFn envC9 ⟨"d9", [⟨⟨0, "シート1"⟩⟩]⟩ "d9" 0).2 ≠
      FnRes.crash)
  ∧ (deleteBlankSheetFn envC9 ⟨"d9", []⟩ "d9" 0).2 = FnRes.crash
  ∧ (quickstartRun envC9).2 = Outcome.crash :=
  ⟨C9_unchecked_first_sheet_access.1 envC9 ⟨"d9", [⟨⟨0, "シート1"⟩⟩]⟩
      "d9" 0 (by decide),
   (C9_unchecked_first_sheet_access.2.1 envC9 ⟨"d9", []⟩ "d9" 0 rfl).1,
   C9_unchecked_first_sheet_access.2.2 envC9 ⟨"d9", []⟩ ⟨"", [⟨⟨1, "一"⟩⟩]⟩
     (fun i => ⟨Int.ofNat i, "一のコピー"⟩) rfl rfl rfl (by decide)
     (fun _ => rfl) (fun _ => rfl)⟩

/-- C1 as stated is false: in the completed run under `envC1`, whose
re-fetched destination has two sheets, a value-update request is issued
for the second sheet 二 as well, not only for the first sheet. -/
theorem C1_counterexample :
    (quickstartRun envC1).2 = Outcome.ok ∧
    (ApiCall.valuesUpdate "d" "二!A1:A3"
        ⟨"二!A1:A3", [[CellValue.int 2026], [], [CellValue.int 10]],
          "ROWS"⟩ "RAW"
      ∈ (quickstartRun envC1).1.map Prod.fst) := by
  refine ⟨by decide, by decide⟩

/-- C1 amended: after the destination spreadsheet is re-fetched, the
year/month write targets every sheet of the re-fetched destination:
the value-update requests issued in a fully successful run are exactly
one per destination sheet, writing the year into A1 and the month into
A3 of that sheet (row 2 left empty), with range `<title>!A1:A3`. -/
theorem C1_values_target_every_sheet (env : Env)
    (newSheet src dest : Spreadsheet) (b : Sheet)
    (ps : Nat → SheetProperties)
    (hcr : env.createResp = .ok newSheet)
    (hg0 : env.getResp 0 sourceSpreadsheetId = .ok src)
    (hc : ∀ i, env.copyResp i = .ok (ps i))
    (hb : ∀ i, env.batchResp i = .ok ())
    (hg1 : env.getResp 1 newSheet.spreadsheetId = .ok dest)
    (hv : ∀ i, env.valuesResp i = .ok ())
    (hhd : newSheet.sheets.head? = some b) :
    ((quickstartRun env).1.map Prod.fst).filter isValuesUpdateCall =
      dest.sheets.map fun sheet =>
        ApiCall.valuesUpdate newSheet.spreadsheetId
          (sheet.properties.title ++ "!A1:A3")
          ⟨sheet.properties.title ++ "!A1:A3",
            [[CellValue.int env.nowYear], [], [CellValue.int env.nowMonth]],
            "ROWS"⟩ "RAW" := by
  rw [quickstartRun_of_ok env newSheet src dest b ps hcr hg0 hc hb hg1 hv
    hhd]
  have hm := filter_values_map_valuesCall newSheet.spreadsheetId
    env.nowYear env.nowMonth dest.sheets
  have hec := expectedCopy_filter_values newSheet.spreadsheetId ps
    src.sheets 0
  by_cases hse : src.sheets.isEmpty <;>
    simp [hse, List.filter_append, List.map_map, Function.comp_def,
      isValuesUpdateCall, hec, hm, valuesCallOf]

/-- Witness for C1's amended claim under `envC1`: both destination
sheets receive a value-update request. -/
theorem C1_values_target_every_sheet_witness :
    ((quickstartRun envC1).1.map Prod.fst).filter isValuesUpdateCall =
      [ApiCall.valuesUpdate "d" "一!A1:A3"
          ⟨"一!A1:A3", [[CellValue.int 2026], [], [CellValue.int 10]],
            "ROWS"⟩ "RAW",
       ApiCall.valuesUpdate "d" "二!A1:A3"
          ⟨"二!A1:A3", [[CellValue.int 2026], [], [CellValue.int 10]],
            "ROWS"⟩ "RAW"] :=
  C1_values_target_every_sheet envC1 ⟨"d", [⟨⟨0, "シート1"⟩⟩]⟩
    ⟨"", [⟨⟨1, "一"⟩⟩, ⟨⟨2, "二"⟩⟩]⟩ ⟨"d", [⟨⟨10, "一"⟩⟩, ⟨⟨11, "二"⟩⟩]⟩
    ⟨⟨0, "シート1"⟩⟩ (fun i => ⟨Int.ofNat (100 + i), "一のコピー"⟩)
    rfl rfl (fun _ => rfl) (fun _ => rfl) rfl (fun _ => rfl) rfl

/-- C2 as stated is false: in the completed run under `envNoSheets`,
whose source spreadsheet has zero sheets, the copy phase completes
(vacuously) yet no delete request is ever issued, so the destination's
default blank sheet is not removed. -/
theorem C2_counterexample :
    (quickstartRun envNoSheets).2 = Outcome.ok ∧
    ((quickstartRun envNoSheets).1.map Prod.fst).filter isDeleteCall
      = [] := by
  refine ⟨by decide, by decide⟩

/-- C2 amended: in a fully successful run the default blank sheet (the
first sheet of the created destination) is deleted exactly when the
source spreadsheet has at least one sheet; with a zero-sheet source no
delete request is issued and the blank sheet remains. -/
theorem C2_delete_only_when_source_nonempty (env : Env)
    (newSheet src dest : Spreadsheet) (b : Sheet)
    (ps : Nat → SheetProperties)
    (hcr : env.createResp = .ok newSheet)
    (hg0 : env.getResp 0 sourceSpreadsheetId = .ok src)
    (hc : ∀ i, env.copyResp i = .ok (ps i))
    (hb : ∀ i, env.batchResp i = .ok ())
    (hg1 : env.getResp 1 newSheet.spreadsheetId = .ok dest)
    (hv : ∀ i, env.valuesResp i = .ok ())
    (hhd : newSheet.sheets.head? = some b) :
    ((quickstartRun env).1.map Prod.fst).filter isDeleteCall =
      (if src.sheets.isEmpty then []
       else [ApiCall.batchUpdate newSheet.spreadsheetId
              [BatchRequest.deleteSheet b.properties.sheetId]]) := by
  rw [quickstartRun_of_ok env newSheet src dest b ps hcr hg0 hc hb hg1 hv
    hhd]
  have hm := filter_delete_map_valuesCall newSheet.spreadsheetId
    env.nowYear env.nowMonth dest.sheets
  have hec := expectedCopy_filter_delete newSheet.spreadsheetId ps
    src.sheets 0
  by_cases hse : src.sheets.isEmpty <;>
    simp [hse, List.filter_append, List.map_map, Function.comp_def,
      isDeleteCall, isGetCall, hec, hm]

/-- Witness for C2's amended claim under `envOneSheet`: with a
one-sheet source, exactly the delete of the created destination's
first sheet (id 0) is issued. -/
theorem C2_delete_only_when_source_nonempty_witness :
    ((quickstartRun envOneSheet).1.map Prod.fst).filter isDeleteCall =
      [ApiCall.batchUpdate "d" [BatchRequest.deleteSheet 0]] :=
  C2_delete_only_when_source_nonempty envOneSheet
    ⟨"d", [⟨⟨0, "シート1"⟩⟩]⟩ ⟨"", [⟨⟨1, "雛形"⟩⟩]⟩ ⟨"d", [⟨⟨7, "雛形"⟩⟩]⟩
    ⟨⟨0, "シート1"⟩⟩ (fun i => ⟨Int.ofNat (100 + i), "雛形のコピー"⟩)
    rfl rfl (fun _ => rfl) (fun _ => rfl) rfl (fun _ => rfl) rfl

/-- C3 as stated is false: under `envNoSheets` a run completes with the
operation sequence create, get-source, get-destination, value-update —
no delete of the blank sheet is ever issued, although the claim lists
the delete as part of the fixed order of every run. -/
theorem C3_counterexample :
    (quickstartRun envNoSheets).2 = Outcome.ok ∧
    (quickstartRun envNoSheets).1.map Prod.fst =
      [ApiCall.create newSpreadsheetTitle, ApiCall.get "",
       ApiCall.get "d2",
       ApiCall.valuesUpdate "d2" "シート1!A1:A3"
         ⟨"シート1!A1:A3", [[CellValue.int 2026], [], [CellValue.int 10]],
           "ROWS"⟩ "RAW"] := by
  refine ⟨by decide, by decide⟩

/-- C3 amended: in a fully successful run the operations are issued in
the fixed order create, fetch source, then per source sheet a copy
immediately followed by the rename of that copy, then — only when the
source has at least one sheet — the delete of the destination's blank
sheet, then fetch destination, then the year/month value writes; no
later-phase operation ever precedes an earlier phase. -/
theorem C3_trace_order (env : Env)
    (newSheet src dest : Spreadsheet) (b : Sheet)
    (ps : Nat → SheetProperties)
    (hcr : env.createResp = .ok newSheet)
    (hg0 : env.getResp 0 sourceSpreadsheetId = .ok src)
    (hc : ∀ i, env.copyResp i = .ok (ps i))
    (hb : ∀ i, env.batchResp i = .ok ())
    (hg1 : env.getResp 1 newSheet.spreadsheetId = .ok dest)
    (hv : ∀ i, env.valuesResp i = .ok ())
    (hhd : newSheet.sheets.head? = some b) :
    (quickstartRun env).1.map Prod.fst =
      ApiCall.create newSpreadsheetTitle
        :: ApiCall.get sourceSpreadsheetId
        :: ((expectedCopy newSheet.spreadsheetId ps src.sheets 0).map
              Prod.fst
            ++ (if src.sheets.isEmpty then []
                else [ApiCall.batchUpdate newSheet.spreadsheetId
                        [BatchRequest.deleteSheet b.properties.sheetId]])
            ++ ApiCall.get newSheet.spreadsheetId
              :: dest.sheets.map fun sheet =>
                   valuesCallOf newSheet.spreadsheetId env.nowYear
                     env.nowMonth sheet) := by
  rw [quickstartRun_of_ok env newSheet src dest b ps hcr hg0 hc hb hg1 hv
    hhd]
  by_cases hse : src.sheets.isEmpty <;>
    simp [hse, List.map_map, Function.comp_def]

/-- Witness for C3's amended claim under `envOneSheet`. -/
theorem C3_trace_order_witness :
    (quickstartRun envOneSheet).1.map Prod.fst =
      ApiCall.create newSpreadsheetTitle
        :: ApiCall.get sourceSpreadsheetId
        :: ((expectedCopy "d"
              (fun i => ⟨Int.ofNat (100 + i), "雛形のコピー"⟩)
              [⟨⟨1, "雛形"⟩⟩] 0).map Prod.fst
            ++ [ApiCall.batchUpdate "d" [BatchRequest.deleteSheet 0]]
            ++ ApiCall.get "d"
              :: [⟨⟨7, "雛形"⟩⟩].map fun sheet =>
                   valuesCallOf "d" 2026 10 sheet) :=
  C3_trace_order envOneSheet ⟨"d", [⟨⟨0, "シート1"⟩⟩]⟩
    ⟨"", [⟨⟨1, "雛形"⟩⟩]⟩ ⟨"d", [⟨⟨7, "雛形"⟩⟩]⟩ ⟨⟨0, "シート1"⟩⟩
    (fun i => ⟨Int.ofNat (100 + i), "雛形のコピー"⟩)
    rfl rfl (fun _ => rfl) (fun _ => rfl) rfl (fun _ => rfl) rfl

/-- C4 as stated is false: a fully successful run with a one-sheet
source performs seven API calls (create, get, copy, rename
batch-update, delete batch-update, get, value-update), not five. -/
theorem C4_counterexample :
    (quickstartRun envOneSheet).2 = Outcome.ok ∧
    (quickstartRun envOneSheet).1.length = 7 := by
  refine ⟨by decide, by decide⟩

/-- C4 amended: a fully successful run touches exactly the five
endpoint kinds create / get / copy-sheet / batch-update /
update-values, with per-endpoint call counts 1, 2, `n`,
`n + 1` (`n` when the source is empty) and `m`, where `n` is the
number of source sheets and `m` the number of sheets of the re-fetched
destination — not one call each. -/
theorem C4_endpoint_counts (env : Env)
    (newSheet src dest : Spreadsheet) (b : Sheet)
    (ps : Nat → SheetProperties)
    (hcr : env.createResp = .ok newSheet)
    (hg0 : env.getResp 0 sourceSpreadsheetId = .ok src)
    (hc : ∀ i, env.copyResp i = .ok (ps i))
    (hb : ∀ i, env.batchResp i = .ok ())
    (hg1 : env.getResp 1 newSheet.spreadsheetId = .ok dest)
    (hv : ∀ i, env.valuesResp i = .ok ())
    (hhd : newSheet.sheets.head? = some b) :
    ((quickstartRun env).1.map Prod.fst).countP isCreateCall = 1 ∧
    ((quickstartRun env).1.map Prod.fst).countP isGetCall = 2 ∧
    ((quickstartRun env).1.map Prod.fst).countP isCopyCall =
      src.sheets.length ∧
    ((quickstartRun env).1.map Prod.fst).countP isBatchCall =
      src.sheets.length + (if src.sheets.isEmpty then 0 else 1) ∧
    ((quickstartRun env).1.map Prod.fst).countP isValuesUpdateCall =
      dest.sheets.length := by
  rw [quickstartRun_of_ok env newSheet src dest b ps hcr hg0 hc hb hg1 hv
    hhd]
  have h1 := countP_other_map_valuesCall newSheet.spreadsheetId
    env.nowYear env.nowMonth isCreateCall (fun _ _ _ _ => rfl) dest.sheets
  have h2 := countP_other_map_valuesCall newSheet.spreadsheetId
    env.nowYear env.nowMonth isGetCall (fun _ _ _ _ => rfl) dest.sheets
  have h3 := countP_other_map_valuesCall newSheet.spreadsheetId
    env.nowYear env.nowMonth isCopyCall (fun _ _ _ _ => rfl) dest.sheets
  have h4 := countP_other_map_valuesCall newSheet.spreadsheetId
    env.nowYear env.nowMonth isBatchCall (fun _ _ _ _ => rfl) dest.sheets
  have h5 := countP_values_map_valuesCall newSheet.spreadsheetId
    env.nowYear env.nowMonth dest.sheets
  have e1 := expectedCopy_countP_create newSheet.spreadsheetId ps
    src.sheets 0
  have e2 := expectedCopy_countP_get newSheet.spreadsheetId ps
    src.sheets 0
  have e3 := expectedCopy_countP_copy newSheet.spreadsheetId ps
    src.sheets 0
  have e4 := expectedCopy_countP_batch newSheet.spreadsheetId ps
    src.sheets 0
  have e5 := expectedCopy_countP_values newSheet.spreadsheetId ps
    src.sheets 0
  by_cases hse : src.sheets.isEmpty <;>
    refine ⟨?_, ?_, ?_, ?_, ?_⟩ <;>
    simp [hse, List.countP_append, List.countP_cons, List.map_map,
      Function.comp_def, isCreateCall, isGetCall, isCopyCall, isBatchCall,
      isValuesUpdateCall, h1, h2, h3, h4, h5, e1, e2, e3, e4, e5]

/-- Witness for C4's amended claim under `envOneSheet`: counts are
1 create, 2 gets, 1 copy, 2 batch-updates, 1 value-update. -/
theorem C4_endpoint_counts_witness :
    ((quickstartRun envOneSheet).1.map Prod.fst).countP isCreateCall = 1 ∧
    ((quickstartRun envOneSheet).1.map Prod.fst).countP isGetCall = 2 ∧
    ((quickstartRun envOneSheet).1.map Prod.fst).countP isCopyCall = 1 ∧
    ((quickstartRun envOneSheet).1.map Prod.fst).countP isBatchCall = 2 ∧
    ((quickstartRun envOneSheet).1.map Prod.fst).countP
      isValuesUpdateCall = 1 :=
  C4_endpoint_counts envOneSheet ⟨"d", [⟨⟨0, "シート1"⟩⟩]⟩
    ⟨"", [⟨⟨1, "雛形"⟩⟩]⟩ ⟨"d", [⟨⟨7, "雛形"⟩⟩]⟩ ⟨⟨0, "シート1"⟩⟩
    (fun i => ⟨Int.ofNat (100 + i), "雛形のコピー"⟩)
    rfl rfl (fun _ => rfl) (fun _ => rfl) rfl (fun _ => rfl) rfl

/-- Witness for C6 at the concrete environment `envFailCopy`, whose
first copy call fails: the trace stops at the first failure and the run
is fatal exactly because its last call failed. -/
theorem C6_abort_on_first_failure_witness :
    stopsAtFirstFailure (quickstartRun envFailCopy).1 = true ∧
      ((quickstartRun envFailCopy).2 = Outcome.fatal ↔
        ∃ c, (quickstartRun envFailCopy).1.getLast? = some (c, false)) :=
  C6_abort_on_first_failure envFailCopy

/-- Witness for C10 at concrete inputs under `envOneSheet`. -/
theorem C10_error_returns_vacuous_witness :
    ((copySpreadsheetFn envOneSheet ⟨"", [⟨⟨1, "雛形"⟩⟩]⟩ "d" 0 0).2 =
        FnRes.aborted ∨
      ∃ counts, (copySpreadsheetFn envOneSheet ⟨"", [⟨⟨1, "雛形"⟩⟩]⟩
        "d" 0 0).2 = FnRes.returned none counts)
  ∧ ((deleteBlankSheetFn envOneSheet ⟨"d", [⟨⟨0, "シート1"⟩⟩]⟩ "d" 1).2 =
        FnRes.crash ∨
      (deleteBlankSheetFn envOneSheet ⟨"d", [⟨⟨0, "シート1"⟩⟩]⟩ "d" 1).2 =
        FnRes.aborted ∨
      (deleteBlankSheetFn envOneSheet ⟨"d", [⟨⟨0, "シート1"⟩⟩]⟩ "d" 1).2 =
        FnRes.returned none ())
  ∧ ((updateCellsYearMonthFn envOneSheet ⟨"d", [⟨⟨7, "雛形"⟩⟩]⟩ "d").2 =
        FnRes.aborted ∨
      (updateCellsYearMonthFn envOneSheet ⟨"d", [⟨⟨7, "雛形"⟩⟩]⟩ "d").2 =
        FnRes.returned none ()) :=
  ⟨C10_error_returns_vacuous.1 envOneSheet ⟨"", [⟨⟨1, "雛形"⟩⟩]⟩ "d" 0 0,
   C10_error_returns_vacuous.2.1 envOneSheet ⟨"d", [⟨⟨0, "シート1"⟩⟩]⟩
     "d" 1,
   C10_error_returns_vacuous.2.2 envOneSheet ⟨"d", [⟨⟨7, "雛形"⟩⟩]⟩ "d"⟩
